import Mathlib

/-!
Verification development for the Impulse Lab trial/session engine
(`src/app.js`).  JavaScript numbers are modelled as `ℚ`/`ℤ`/`ℕ`
(`Math.floor`/`Math.round` become `Int.floor`-based helpers), the
`Math.random()` draws consumed by the stimulus generators are passed in
explicitly as rational arguments in `[0,1)`, and the timer-driven trial
loop is modelled as a fold over per-trial inputs (generator output plus
the tap events that arrive during the countdown).
-/

namespace ImpulseLab

/-- Colors available for the symbol (the keys of `COLORS`, in source order). -/
inductive Color
  | blue
  | red
  | purple
  | yellow
  | green
deriving DecidableEq

/-- Shapes available for the symbol (the `SHAPES` array). -/
inductive Shape
  | circle
  | square
  | triangle
  | diamond
deriving DecidableEq

/-- Color keys for random selection (`COLOR_KEYS = Object.keys(COLORS)`). -/
def COLOR_KEYS : List Color := [.blue, .red, .purple, .yellow, .green]

/-- The `SHAPES` array. -/
def SHAPES : List Shape := [.circle, .square, .triangle, .diamond]

/-- A (color, shape) pair, the generators' output. -/
structure Stimulus where
  color : Color
  shape : Shape
deriving DecidableEq

/-- The canonical target: a blue circle. -/
def targetStimulus : Stimulus := { color := .blue, shape := .circle }

/-- JS `Math.floor` on a rational value. -/
def jsFloor (q : ℚ) : ℤ := ⌊q⌋

/-- JS `Math.round` on a rational value (`floor (x + 1/2)`, which matches
`Math.round` including its round-half-up behaviour). -/
def jsRound (q : ℚ) : ℤ := ⌊q + 1/2⌋

/-- JS `arr[Math.floor(r * arr.length)]` where `r` is a `Math.random()`
draw; out-of-range indices (impossible for `0 ≤ r < 1`) fall back to `d`. -/
def jsIndex {α : Type} (l : List α) (d : α) (r : ℚ) : α :=
  l.getD (jsFloor (r * l.length)).toNat d

/-- `COLOR_KEYS.filter(c => c !== "blue")`. -/
def nonBlueColors : List Color := COLOR_KEYS.filter (fun c => c != Color.blue)

/-- `SHAPES.filter(s => s !== "circle")`. -/
def nonCircleShapes : List Shape := SHAPES.filter (fun s => s != Shape.circle)

/-- `generateDistractor`: any color/shape combo except blue circle.
`t` is the `distractorType` draw; `r1`, `r2` are the index draws used by
the chosen branch. -/
def generateDistractor (t r1 r2 : ℚ) : Stimulus :=
  if t < 0.4 then
    { color := jsIndex nonBlueColors Color.red r1, shape := Shape.circle }
  else if t < 0.7 then
    { color := Color.blue, shape := jsIndex nonCircleShapes Shape.square r1 }
  else
    { color := jsIndex nonBlueColors Color.red r1,
      shape := jsIndex nonCircleShapes Shape.square r2 }

/-- Output of a mode's `getTrialProps` in multi-target form. -/
structure TrialProps where
  symbols : List Stimulus
  hasTarget : Bool
deriving DecidableEq

/-- `MODES.multiTarget.getTrialProps(targetProbability, symbolCount)`.
`rHas` is the target-probability coin flip, `rIdx` the target-position
draw, and `rd i` the three draws `generateDistractor` consumes for slot
`i`. -/
def multiTargetTrialProps (targetProbability : ℚ) (symbolCount : ℕ)
    (rHas rIdx : ℚ) (rd : ℕ → ℚ × ℚ × ℚ) : TrialProps :=
  if rHas < targetProbability then
    let targetIndex := (jsFloor (rIdx * symbolCount)).toNat
    { symbols := (List.range symbolCount).map (fun i =>
        if i = targetIndex then { color := .blue, shape := .circle }
        else generateDistractor (rd i).1 (rd i).2.1 (rd i).2.2),
      hasTarget := true }
  else
    { symbols := (List.range symbolCount).map (fun i =>
        generateDistractor (rd i).1 (rd i).2.1 (rd i).2.2),
      hasTarget := false }

/-- Game mode identifiers (the keys of `MODES`). -/
inductive ModeId
  | tapOnBlue
  | blueCircle
  | multiTarget
  | focusLab
deriving DecidableEq

/-- The `isVigilance` flag of each mode. -/
def modeIsVigilance : ModeId → Bool
  | .focusLab => true
  | _ => false

/-- The `isMulti` flag of each mode. -/
def modeIsMulti : ModeId → Bool
  | .multiTarget => true
  | _ => false

/-- Each mode's `isTarget(color, shape)` predicate. -/
def modeIsTarget : ModeId → Color → Shape → Bool
  | .tapOnBlue, c, _ => c = Color.blue
  | .blueCircle, c, sh => c = Color.blue ∧ sh = Shape.circle
  | .multiTarget, c, sh => c = Color.blue ∧ sh = Shape.circle
  | .focusLab, c, _ => c = Color.blue

/-- Result of `getLevelConfig`. -/
structure LevelConfig where
  mode : ModeId
  symbolCount : ℕ
  trialDuration : ℤ
  targetProbability : ℚ
  passScore : ℤ
  isMoving : Bool
deriving DecidableEq

/-- `getLevelConfig(level)`: difficulty parameters for a campaign level. -/
def getLevelConfig (level : ℕ) : LevelConfig :=
  let ms : ModeId × ℕ :=
    if 5 ≤ level then (ModeId.multiTarget, min 6 (2 + (level - 5) / 2))
    else if 4 ≤ level then (ModeId.blueCircle, 1)
    else (ModeId.tapOnBlue, 1)
  { mode := ms.1
    symbolCount := ms.2
    trialDuration := max 350 (900 - ((level : ℤ) - 1) * 50)
    targetProbability := max 0.15 (0.45 - ((level : ℚ) - 1) * 0.02)
    passScore := min 85 (jsRound (55 + ((level : ℚ) - 1) * 2))
    isMoving := decide (3 ≤ level) }

/-- An entry of `CAMPAIGN_CONFIG.unlocks`. -/
structure Unlock where
  type : String
  id : String
  label : String
deriving DecidableEq

/-- `CAMPAIGN_CONFIG.maxLives`. -/
def maxLives : ℤ := 3

/-- `CAMPAIGN_CONFIG.trialsPerLevel`. -/
def trialsPerLevel : ℕ := 20

/-- `CAMPAIGN_CONFIG.unlocks`, the level-indexed unlock table. -/
def campaignUnlocks (level : ℕ) : Option Unlock :=
  if level = 1 then some { type := "mode", id := "tapOnBlue", label := "Tap on Blue mode" }
  else if level = 3 then some { type := "feature", id := "moving", label := "Moving Objects" }
  else if level = 4 then some { type := "mode", id := "blueCircle", label := "Blue Circle mode" }
  else if level = 5 then some { type := "mode", id := "multiTarget", label := "Multi-Target mode" }
  else none

/-- The persistent campaign progression state. -/
structure Campaign where
  level : ℕ
  highestLevel : ℕ
  lives : ℤ
  streak : ℕ
  totalGamesPlayed : ℕ
  unlockedModes : List String
deriving DecidableEq

/-- The initial `campaign` object literal. -/
def initialCampaign : Campaign :=
  { level := 1, highestLevel := 1, lives := maxLives, streak := 0,
    totalGamesPlayed := 0, unlockedModes := ["tapOnBlue"] }

/-- `checkUnlocks(level)`: grants the level's unlock when it is a mode
unlock not yet granted; returns the updated campaign together with the
unlock the source function returns (`none` models its `null`). -/
def checkUnlocks (level : ℕ) (c : Campaign) : Campaign × Option Unlock :=
  match campaignUnlocks level with
  | some u =>
    if u.type = "mode" ∧ u.id ∉ c.unlockedModes then
      ({ c with unlockedModes := c.unlockedModes ++ [u.id] }, some u)
    else (c, none)
  | none => (c, none)

/-- Result of `handleCampaignResult`: the mutated campaign plus the
session fields it writes (`state.levelPassed`, `state.newUnlock`). -/
structure CampaignOutcome where
  campaign : Campaign
  levelPassed : Bool
  newUnlock : Option Unlock
deriving DecidableEq

/-- `handleCampaignResult(score)` with the session's `passScore`. -/
def handleCampaignResult (score passScore : ℤ) (c : Campaign) : CampaignOutcome :=
  if passScore ≤ score then
    let c1 : Campaign := { c with streak := c.streak + 1, level := c.level + 1 }
    let c2 : Campaign :=
      if c1.highestLevel < c1.level then { c1 with highestLevel := c1.level } else c1
    let cu := checkUnlocks c2.level c2
    { campaign := { cu.1 with totalGamesPlayed := cu.1.totalGamesPlayed + 1 },
      levelPassed := true, newUnlock := cu.2 }
  else
    let c1 : Campaign := { c with lives := c.lives - 1, streak := 0 }
    let c2 : Campaign :=
      if c1.lives ≤ 0 then { c1 with level := 1, lives := maxLives } else c1
    { campaign := { c2 with totalGamesPlayed := c2.totalGamesPlayed + 1 },
      levelPassed := false, newUnlock := none }

/-- Session status. -/
inductive Status
  | idle
  | running
  | finished
deriving DecidableEq

/-- One vigilance quarter bucket. -/
structure Quarter where
  hits : ℕ
  misses : ℕ
  falseTaps : ℕ
  targets : ℕ
  reactionTimes : List ℚ
deriving DecidableEq

/-- A fresh quarter bucket. -/
def emptyQuarter : Quarter :=
  { hits := 0, misses := 0, falseTaps := 0, targets := 0, reactionTimes := [] }

/-- The mutable session `state` object (the fields the trial engine and
scoring read or write; DOM/timer handles are external). -/
structure SessionState where
  status : Status
  gameMode : String
  currentMode : ModeId
  difficulty : String
  maxTrials : ℕ
  trialDuration : ℤ
  trialDurationMin : ℤ
  trialDurationMax : ℤ
  targetProbability : ℚ
  passScore : ℤ
  symbolCount : ℕ
  isMoving : Bool
  trialIndex : ℕ
  hits : ℕ
  misses : ℕ
  falseTaps : ℕ
  totalTargets : ℕ
  reactionTimes : List ℚ
  vigilanceQuarters : List Quarter
  currentColor : Color
  currentShape : Shape
  currentSymbols : List Stimulus
  currentIsTarget : Bool
  hasTappedThisTrial : Bool
  trialStartTime : ℚ
  lastScore : Option ℤ
  levelPassed : Bool
deriving DecidableEq

/-- The initial `state` object literal. -/
def baseSession : SessionState :=
  { status := .idle, gameMode := "freeplay", currentMode := .tapOnBlue,
    difficulty := "normal", maxTrials := 25, trialDuration := 800,
    trialDurationMin := 800, trialDurationMax := 800, targetProbability := 0.4,
    passScore := 50, symbolCount := 1, isMoving := false, trialIndex := 0,
    hits := 0, misses := 0, falseTaps := 0, totalTargets := 0,
    reactionTimes := [],
    vigilanceQuarters := [emptyQuarter, emptyQuarter, emptyQuarter, emptyQuarter],
    currentColor := .blue, currentShape := .circle, currentSymbols := [],
    currentIsTarget := false, hasTappedThisTrial := false, trialStartTime := 0,
    lastScore := none, levelPassed := false }

/-- Updates the quarter at index `i` (the source indexes the
`vigilanceQuarters` array directly). -/
def modifyAt (f : Quarter → Quarter) : ℕ → List Quarter → List Quarter
  | _, [] => []
  | 0, q :: qs => f q :: qs
  | n + 1, q :: qs => q :: modifyAt f n qs

/-- `getCurrentQuarter()`: quarter index 0-3 from the 1-based current
trial index. -/
def getCurrentQuarter (s : SessionState) : ℕ :=
  (min 3 (jsFloor ((s.trialIndex : ℚ) / (s.maxTrials : ℚ) * 4))).toNat

/-- `handleTap()`: classifies the first tap of a trial; `now` is the
clock reading at the tap. -/
def handleTap (now : ℚ) (s : SessionState) : SessionState :=
  if s.status ≠ Status.running then s
  else if s.hasTappedThisTrial then s
  else
    let s1 : SessionState := { s with hasTappedThisTrial := true }
    let reactionTime := now - s1.trialStartTime
    let quarter := getCurrentQuarter s1
    if s1.currentIsTarget then
      let s2 : SessionState :=
        { s1 with
          hits := s1.hits + 1,
          reactionTimes := s1.reactionTimes ++ [reactionTime] }
      if modeIsVigilance s2.currentMode then
        { s2 with
          vigilanceQuarters := modifyAt
            (fun q =>
              { q with
                hits := q.hits + 1,
                reactionTimes := q.reactionTimes ++ [reactionTime] })
            quarter s2.vigilanceQuarters }
      else s2
    else
      let s2 : SessionState := { s1 with falseTaps := s1.falseTaps + 1 }
      if modeIsVigilance s2.currentMode then
        { s2 with
          vigilanceQuarters := modifyAt
            (fun q => { q with falseTaps := q.falseTaps + 1 })
            quarter s2.vigilanceQuarters }
      else s2

/-- External per-trial input: the active mode's generator output (a
single stimulus for single-symbol modes, a symbol array plus target flag
for multi-target), the trial start timestamp, and the timestamps of the
tap events arriving before the countdown expires. -/
structure TrialInput where
  stim : Stimulus
  multiSymbols : List Stimulus
  multiHasTarget : Bool
  start : ℚ
  taps : List ℚ

/-- The stimulus-presentation half of `runNextTrial()`: advance the trial
index, install the generator output, count the target, reset the
per-trial tap flag and record the start time. -/
def trialBegin (inp : TrialInput) (s : SessionState) : SessionState :=
  let s1 : SessionState := { s with trialIndex := s.trialIndex + 1 }
  let s2 : SessionState :=
    if modeIsMulti s1.currentMode then
      { s1 with
        currentSymbols := inp.multiSymbols,
        currentIsTarget := inp.multiHasTarget }
    else
      { s1 with
        currentColor := inp.stim.color,
        currentShape := inp.stim.shape,
        currentSymbols := [inp.stim],
        currentIsTarget := modeIsTarget s1.currentMode inp.stim.color inp.stim.shape }
  let s3 : SessionState :=
    if s2.currentIsTarget then
      let st : SessionState := { s2 with totalTargets := s2.totalTargets + 1 }
      if modeIsVigilance st.currentMode then
        { st with
          vigilanceQuarters := modifyAt
            (fun q => { q with targets := q.targets + 1 })
            (getCurrentQuarter st) st.vigilanceQuarters }
      else st
    else s2
  { s3 with hasTappedThisTrial := false, trialStartTime := inp.start }

/-- The countdown-expiry callback of `runNextTrial()`: record a miss when
the target trial elapsed with no tap. -/
def trialTimeout (s : SessionState) : SessionState :=
  if s.currentIsTarget ∧ s.hasTappedThisTrial = false then
    let s1 : SessionState := { s with misses := s.misses + 1 }
    if modeIsVigilance s1.currentMode then
      { s1 with
        vigilanceQuarters := modifyAt
          (fun q => { q with misses := q.misses + 1 })
          (getCurrentQuarter s1) s1.vigilanceQuarters }
    else s1
  else s

/-- One complete trial: present the stimulus, process the tap events that
arrive during the countdown, then run the expiry callback. -/
def runTrial (inp : TrialInput) (s : SessionState) : SessionState :=
  trialTimeout (inp.taps.foldl (fun a t => handleTap t a) (trialBegin inp s))

/-- The trial loop of `runNextTrial()`: before each trial the source
checks `trialIndex >= maxTrials` and ends the game instead. -/
def runTrialsFrom (inputs : List TrialInput) (s : SessionState) : SessionState :=
  match inputs with
  | [] => s
  | inp :: rest =>
    if s.maxTrials ≤ s.trialIndex then s
    else runTrialsFrom rest (runTrial inp s)

/-- `calculateScore()`: the 0-100 session score from the final counters. -/
def calculateScore (s : SessionState) : ℤ :=
  let totalTrials : ℤ := s.maxTrials
  let actualTargets : ℤ := s.totalTargets
  let nonTargets : ℤ := totalTrials - actualTargets
  if actualTargets = 0 then
    if s.falseTaps = 0 then 100 else max 0 (100 - (s.falseTaps : ℤ) * 20)
  else
    let hitRate : ℚ := ((s.hits : ℚ) / (s.totalTargets : ℚ)) * 100
    let falseTapPenalty : ℚ :=
      if 0 < nonTargets then ((s.falseTaps : ℚ) / (nonTargets : ℚ)) * 50
      else (s.falseTaps : ℚ) * 10
    let missPenalty : ℚ := (s.misses : ℚ) * 2
    max 0 (min 100 (jsRound (hitRate - falseTapPenalty - missPenalty)))

/-- The counter-relevant part of `endGame()`: freeze the session and
record the score. -/
def endGameCounters (s : SessionState) : SessionState :=
  { s with status := Status.finished, lastScore := some (calculateScore s) }

/-- `resetState()` restricted to the session fields (DOM resets are
external). -/
def resetState (s : SessionState) : SessionState :=
  { s with
    status := .idle, trialIndex := 0, hits := 0, misses := 0,
    falseTaps := 0, totalTargets := 0, reactionTimes := [],
    currentColor := .blue, currentShape := .circle, currentSymbols := [],
    currentIsTarget := false, hasTappedThisTrial := false, trialStartTime := 0,
    levelPassed := false, isMoving := false,
    vigilanceQuarters := [emptyQuarter, emptyQuarter, emptyQuarter, emptyQuarter] }

/-- The state mutation of `startSessionInternal()`: reset, then run. -/
def startSessionCore (s : SessionState) : SessionState :=
  { resetState s with status := Status.running }

/-- A session driven to its end: the trial loop over the supplied inputs
followed by `endGame()`. -/
def runSessionToEnd (inputs : List TrialInput) (s : SessionState) : SessionState :=
  endGameCounters (runTrialsFrom inputs s)

/-- An entry of `DIFFICULTY_CONFIG`. -/
structure DiffConfig where
  label : String
  maxTrials : ℕ
  trialDuration : ℤ
  targetProbability : ℚ
deriving DecidableEq

/-- `DIFFICULTY_CONFIG` as a lookup from the difficulty key. -/
def DIFFICULTY_CONFIG (d : String) : Option DiffConfig :=
  if d = "easy" then some { label := "Easy", maxTrials := 20, trialDuration := 1000, targetProbability := 0.5 }
  else if d = "normal" then some { label := "Normal", maxTrials := 25, trialDuration := 800, targetProbability := 0.4 }
  else if d = "hard" then some { label := "Hard", maxTrials := 30, trialDuration := 600, targetProbability := 0.3 }
  else none

/-- An entry of `VIGILANCE_DIFFICULTY_CONFIG`. -/
structure VigDiffConfig where
  label : String
  maxTrials : ℕ
  trialDurationMin : ℤ
  trialDurationMax : ℤ
  targetProbability : ℚ
deriving DecidableEq

/-- `VIGILANCE_DIFFICULTY_CONFIG` as a lookup from the difficulty key. -/
def VIGILANCE_DIFFICULTY_CONFIG (d : String) : Option VigDiffConfig :=
  if d = "easy" then some { label := "Easy", maxTrials := 40, trialDurationMin := 1500, trialDurationMax := 2500, targetProbability := 0.15 }
  else if d = "normal" then some { label := "Normal", maxTrials := 60, trialDurationMin := 1000, trialDurationMax := 3000, targetProbability := 0.1 }
  else if d = "hard" then some { label := "Hard", maxTrials := 80, trialDurationMin := 600, trialDurationMax := 3500, targetProbability := 0.08 }
  else none

/-- `applyDifficulty(difficulty)`.  On an unknown key the source sets
`state.difficulty = "normal"` and recurses with `"normal"`, which is in
the table, so the recursion is unfolded once here. -/
def applyDifficulty (d : String) (s : SessionState) : SessionState :=
  match DIFFICULTY_CONFIG d with
  | some config =>
    { s with difficulty := d, maxTrials := config.maxTrials,
             trialDuration := config.trialDuration,
             targetProbability := config.targetProbability }
  | none =>
    match DIFFICULTY_CONFIG "normal" with
    | some config =>
      { s with difficulty := "normal", maxTrials := config.maxTrials,
               trialDuration := config.trialDuration,
               targetProbability := config.targetProbability }
    | none => { s with difficulty := "normal" }

/-- `applyVigilanceDifficulty(difficulty)`, with the same one-step
unfolding of the unknown-key recursion. -/
def applyVigilanceDifficulty (d : String) (s : SessionState) : SessionState :=
  match VIGILANCE_DIFFICULTY_CONFIG d with
  | some config =>
    { s with difficulty := d, maxTrials := config.maxTrials,
             trialDurationMin := config.trialDurationMin,
             trialDurationMax := config.trialDurationMax,
             trialDuration := jsRound (((config.trialDurationMin : ℚ) + (config.trialDurationMax : ℚ)) / 2),
             targetProbability := config.targetProbability }
  | none =>
    match VIGILANCE_DIFFICULTY_CONFIG "normal" with
    | some config =>
      { s with difficulty := "normal", maxTrials := config.maxTrials,
               trialDurationMin := config.trialDurationMin,
               trialDurationMax := config.trialDurationMax,
               trialDuration := jsRound (((config.trialDurationMin : ℚ) + (config.trialDurationMax : ℚ)) / 2),
               targetProbability := config.targetProbability }
    | none => { s with difficulty := "normal" }

/-- A sequence of `checkUnlocks` calls (e.g. over several campaign
sessions), keeping the campaign they thread through. -/
def applyUnlockSeq (ls : List ℕ) (c : Campaign) : Campaign :=
  ls.foldl (fun a l => (checkUnlocks l a).1) c

/-- Number of slots of a symbol array holding the canonical target. -/
def targetCount (l : List Stimulus) : ℕ :=
  l.countP (fun s => decide (s = targetStimulus))

/-- A running session presenting a target stimulus, for concrete
evaluation. -/
def runningTargetSession : SessionState :=
  { baseSession with status := .running, trialIndex := 1, currentIsTarget := true }

/-- A concrete non-target trial with no tap, for concrete evaluation. -/
def sampleInput : TrialInput :=
  { stim := { color := .red, shape := .circle }, multiSymbols := [],
    multiHasTarget := false, start := 0, taps := [] }

/-! ## Theorems -/

/-- Helper: the floor of an integer plus one half. -/
theorem jsRound_intCast (z : ℤ) : jsRound ((z : ℚ)) = z := by
  have h : ⌊(1/2 : ℚ)⌋ = 0 := by norm_num
  simp [jsRound, Int.floor_int_add, h]
  norm_num

/-- C2: `getLevelConfig` realises the documented difficulty curve: mode
`tapOnBlue` for levels 1-3, `blueCircle` for level 4, `multiTarget` with
`symbolCount = min 6 (2 + (level-5)/2)` for level ≥ 5; moving stimuli
from level 3; `trialDuration = max 350 (900-(level-1)*50)`;
`targetProbability = max 0.15 (0.45-(level-1)*0.02)`;
`passScore = min 85 (55+(level-1)*2)`; and in particular the documented
value of `getLevelConfig 7`. -/
theorem getLevelConfig_spec (level : ℕ) (h1 : 1 ≤ level) :
    ((level ≤ 3 → (getLevelConfig level).mode = ModeId.tapOnBlue) ∧
     (level = 4 → (getLevelConfig level).mode = ModeId.blueCircle) ∧
     (5 ≤ level → (getLevelConfig level).mode = ModeId.multiTarget ∧
        (getLevelConfig level).symbolCount = min 6 (2 + (level - 5) / 2)) ∧
     (getLevelConfig level).isMoving = decide (3 ≤ level) ∧
     (getLevelConfig level).trialDuration = max 350 (900 - ((level : ℤ) - 1) * 50) ∧
     (getLevelConfig level).targetProbability = max 0.15 (0.45 - ((level : ℚ) - 1) * 0.02) ∧
     (getLevelConfig level).passScore = min 85 (55 + ((level : ℤ) - 1) * 2)) ∧
    getLevelConfig 7 =
      { mode := .multiTarget, symbolCount := 3, trialDuration := 600,
        targetProbability := 0.33, passScore := 67, isMoving := true } := by
  refine ⟨⟨?_, ?_, ?_, ?_, ?_, ?_, ?_⟩, ?_⟩
  · intro h3
    simp only [getLevelConfig]
    rw [if_neg (by omega), if_neg (by omega)]
  · intro h4
    subst h4
    simp [getLevelConfig]
  · intro h5
    simp only [getLevelConfig]
    rw [if_pos h5]
    exact ⟨rfl, rfl⟩
  · simp [getLevelConfig]
  · simp [getLevelConfig]
  · simp [getLevelConfig]
  · simp only [getLevelConfig]
    have hcast : (55 + ((level : ℚ) - 1) * 2) = (((55 + ((level : ℤ) - 1) * 2 : ℤ)) : ℚ) := by
      push_cast
      ring
    rw [hcast, jsRound_intCast]
  · norm_num [getLevelConfig, jsRound, LevelConfig.mk.injEq]

/-- Witness for C2: the theorem applied at level 7. -/
theorem getLevelConfig_spec_witness :
    getLevelConfig 7 =
      { mode := .multiTarget, symbolCount := 3, trialDuration := 600,
        targetProbability := 0.33, passScore := 67, isMoving := true } :=
  (getLevelConfig_spec 7 (by norm_num)).2

/-- C1: `calculateScore` returns 100 when no targets were shown and there
was no false tap; `max 0 (100 - 20F)` when no targets were shown and
`F > 0` false taps occurred; otherwise the clamped rounded value of
`100*H/T - (N > 0 ? 50*F/N : 10F) - 2M` with `N = maxTrials - T`; and in
every branch the result lies in `[0, 100]`. -/
theorem calculateScore_spec (s : SessionState) :
    (0 ≤ calculateScore s ∧ calculateScore s ≤ 100) ∧
    (s.totalTargets = 0 → s.falseTaps = 0 → calculateScore s = 100) ∧
    (s.totalTargets = 0 → 0 < s.falseTaps →
      calculateScore s = max 0 (100 - 20 * (s.falseTaps : ℤ))) ∧
    (0 < s.totalTargets →
      calculateScore s = max 0 (min 100 (jsRound (
        100 * (s.hits : ℚ) / (s.totalTargets : ℚ)
        - (if 0 < (s.maxTrials : ℤ) - (s.totalTargets : ℤ)
           then 50 * (s.falseTaps : ℚ) / ((((s.maxTrials : ℤ) - (s.totalTargets : ℤ)) : ℤ) : ℚ)
           else 10 * (s.falseTaps : ℚ))
        - 2 * (s.misses : ℚ))))) := by
  constructor
  · by_cases hT : (s.totalTargets : ℤ) = 0
    · by_cases hF : s.falseTaps = 0
      · simp [calculateScore, hT, hF]
      · simp only [calculateScore, if_pos hT, if_neg hF]
        constructor
        · exact le_max_left 0 _
        · have hFn : (0 : ℤ) ≤ (s.falseTaps : ℤ) := Int.natCast_nonneg _
          rw [max_le_iff]
          omega
    · simp only [calculateScore, if_neg hT]
      constructor
      · exact le_max_left 0 _
      · rw [max_le_iff]
        exact ⟨by norm_num, le_trans (min_le_left _ _) (by norm_num)⟩
  refine ⟨?_, ?_, ?_⟩
  · intro h0 hF
    simp [calculateScore, h0, hF]
  · intro h0 hF
    have hT : (s.totalTargets : ℤ) = 0 := by simp [h0]
    have hF0 : ¬ s.falseTaps = 0 := by omega
    simp only [calculateScore]
    rw [if_pos hT, if_neg hF0, mul_comm ((s.falseTaps : ℤ)) 20]
  · intro hpos
    have hT : ¬ ((s.totalTargets : ℤ) = 0) := by
      simp only [Int.natCast_eq_zero]
      omega
    simp only [calculateScore, if_neg hT]
    congr 2
    congr 1
    split_ifs <;> ring

/-- Witness for C1: the no-target, no-false-tap branch at the initial
session parameters, and the bounds, at a concrete state. -/
theorem calculateScore_spec_witness :
    calculateScore baseSession = 100 ∧ 0 ≤ calculateScore baseSession :=
  ⟨(calculateScore_spec baseSession).2.1 rfl rfl,
   (calculateScore_spec baseSession).1.1⟩

/-- Helper: `checkUnlocks` touches only `unlockedModes`. -/
theorem checkUnlocks_fields (level : ℕ) (c : Campaign) :
    (checkUnlocks level c).1.level = c.level ∧
    (checkUnlocks level c).1.highestLevel = c.highestLevel ∧
    (checkUnlocks level c).1.lives = c.lives ∧
    (checkUnlocks level c).1.streak = c.streak ∧
    (checkUnlocks level c).1.totalGamesPlayed = c.totalGamesPlayed := by
  cases hu : campaignUnlocks level with
  | none => simp [checkUnlocks, hu]
  | some u =>
    simp only [checkUnlocks, hu]
    split_ifs <;> simp

/-- C3: the campaign transition: on a pass the streak and level increment,
the highest level becomes the max of itself and the new level, and lives
are unchanged; on a fail a life is lost and the streak resets, with a full
level-1/3-lives reset when the last life is lost (highest level and
unlocks kept); the games counter always increments; and the two documented
table rows hold. -/
theorem handleCampaignResult_spec (c : Campaign) (score passScore : ℤ) :
    (passScore ≤ score →
      (handleCampaignResult score passScore c).campaign.streak = c.streak + 1 ∧
      (handleCampaignResult score passScore c).campaign.level = c.level + 1 ∧
      (handleCampaignResult score passScore c).campaign.highestLevel
        = max c.highestLevel (c.level + 1) ∧
      (handleCampaignResult score passScore c).campaign.lives = c.lives) ∧
    (score < passScore → 2 ≤ c.lives →
      (handleCampaignResult score passScore c).campaign.lives = c.lives - 1 ∧
      (handleCampaignResult score passScore c).campaign.streak = 0 ∧
      (handleCampaignResult score passScore c).campaign.level = c.level ∧
      (handleCampaignResult score passScore c).campaign.highestLevel = c.highestLevel ∧
      (handleCampaignResult score passScore c).campaign.unlockedModes = c.unlockedModes) ∧
    (score < passScore → c.lives = 1 →
      (handleCampaignResult score passScore c).campaign.level = 1 ∧
      (handleCampaignResult score passScore c).campaign.lives = maxLives ∧
      (handleCampaignResult score passScore c).campaign.streak = 0 ∧
      (handleCampaignResult score passScore c).campaign.highestLevel = c.highestLevel ∧
      (handleCampaignResult score passScore c).campaign.unlockedModes = c.unlockedModes) ∧
    (handleCampaignResult score passScore c).campaign.totalGamesPlayed
      = c.totalGamesPlayed + 1 ∧
    ((handleCampaignResult 85 55 initialCampaign).campaign.level = 2 ∧
     (handleCampaignResult 85 55 initialCampaign).campaign.streak = 1 ∧
     (handleCampaignResult 85 55 initialCampaign).campaign.lives = 3 ∧
     (handleCampaignResult 85 55 initialCampaign).campaign.totalGamesPlayed = 1) ∧
    ((handleCampaignResult 40 65
        { level := 5, highestLevel := 5, lives := 1, streak := 2,
          totalGamesPlayed := 7, unlockedModes := ["tapOnBlue"] }).campaign =
      { level := 1, highestLevel := 5, lives := 3, streak := 0,
        totalGamesPlayed := 8, unlockedModes := ["tapOnBlue"] }) := by
  refine ⟨?_, ?_, ?_, ?_, by decide, by decide⟩
  · intro hp
    have hfields := checkUnlocks_fields (c.level + 1)
      (if c.highestLevel < c.level + 1
       then { c with streak := c.streak + 1, level := c.level + 1,
                     highestLevel := c.level + 1 }
       else { c with streak := c.streak + 1, level := c.level + 1 })
    simp only [handleCampaignResult, if_pos hp]
    split_ifs at hfields ⊢ with hh
    all_goals simp_all
    all_goals omega
  · intro hf h2
    simp only [handleCampaignResult, if_neg (by omega : ¬ passScore ≤ score)]
    rw [if_neg (by simp; omega)]
    exact ⟨rfl, rfl, rfl, rfl, rfl⟩
  · intro hf h1
    simp only [handleCampaignResult, if_neg (by omega : ¬ passScore ≤ score)]
    rw [if_pos (by simp; omega)]
    simp
  · by_cases hp : passScore ≤ score
    · have hfields := checkUnlocks_fields (c.level + 1)
        (if c.highestLevel < c.level + 1
         then { c with streak := c.streak + 1, level := c.level + 1,
                       highestLevel := c.level + 1 }
         else { c with streak := c.streak + 1, level := c.level + 1 })
      simp only [handleCampaignResult, if_pos hp]
      split_ifs at hfields ⊢ with hh <;> simp_all
    · simp only [handleCampaignResult, if_neg hp]
      split_ifs <;> simp

/-- Witness for C3: both documented table rows, obtained from the theorem
at concrete campaigns. -/
theorem handleCampaignResult_spec_witness :
    (handleCampaignResult 85 55 initialCampaign).campaign.streak
      = initialCampaign.streak + 1 ∧
    (handleCampaignResult 40 65
      { level := 5, highestLevel := 5, lives := 1, streak := 2,
        totalGamesPlayed := 7, unlockedModes := ["tapOnBlue"] }).campaign.level = 1 :=
  ⟨((handleCampaignResult_spec initialCampaign 85 55).1 (by norm_num)).1,
   ((handleCampaignResult_spec
      { level := 5, highestLevel := 5, lives := 1, streak := 2,
        totalGamesPlayed := 7, unlockedModes := ["tapOnBlue"] } 40 65).2.2.1
      (by norm_num) (by norm_num)).1⟩

/-- C9: an unknown difficulty key falls back to the `normal` preset in
both `applyDifficulty` and `applyVigilanceDifficulty`: the session is not
failed, `state.difficulty` becomes `"normal"`, and the resulting trial
parameters equal the normal configuration. -/
theorem applyDifficulty_fallback (d : String) (s : SessionState)
    (h1 : d ≠ "easy") (h2 : d ≠ "normal") (h3 : d ≠ "hard") :
    ((applyDifficulty d s).difficulty = "normal" ∧
     applyDifficulty d s = applyDifficulty "normal" s ∧
     (applyDifficulty d s).maxTrials = 25 ∧
     (applyDifficulty d s).trialDuration = 800 ∧
     (applyDifficulty d s).targetProbability = 0.4) ∧
    ((applyVigilanceDifficulty d s).difficulty = "normal" ∧
     applyVigilanceDifficulty d s = applyVigilanceDifficulty "normal" s ∧
     (applyVigilanceDifficulty d s).maxTrials = 60 ∧
     (applyVigilanceDifficulty d s).trialDurationMin = 1000 ∧
     (applyVigilanceDifficulty d s).trialDurationMax = 3000 ∧
     (applyVigilanceDifficulty d s).targetProbability = 0.1) := by
  have hd : DIFFICULTY_CONFIG d = none := by
    simp [DIFFICULTY_CONFIG, h1, h2, h3]
  have hv : VIGILANCE_DIFFICULTY_CONFIG d = none := by
    simp [VIGILANCE_DIFFICULTY_CONFIG, h1, h2, h3]
  constructor
  · simp only [applyDifficulty, hd]
    simp [DIFFICULTY_CONFIG]
  · simp only [applyVigilanceDifficulty, hv]
    simp [VIGILANCE_DIFFICULTY_CONFIG]

/-- Witness for C9: the fallback at the unknown key `"extreme"`. -/
theorem applyDifficulty_fallback_witness :
    (applyDifficulty "extreme" baseSession).difficulty = "normal" ∧
    (applyVigilanceDifficulty "extreme" baseSession).maxTrials = 60 :=
  ⟨((applyDifficulty_fallback "extreme" baseSession (by decide) (by decide) (by decide)).1).1,
   ((applyDifficulty_fallback "extreme" baseSession (by decide) (by decide) (by decide)).2).2.2.1⟩

/-- C10: a tap while the session is not running (idle or finished) is a
complete no-op on the session state. -/
theorem handleTap_not_running (now : ℚ) (s : SessionState)
    (h : s.status ≠ Status.running) :
    handleTap now s = s := by
  simp [handleTap, h]

/-- Witness for C10: a tap on the idle initial state. -/
theorem handleTap_not_running_witness :
    handleTap 0 baseSession = baseSession :=
  handleTap_not_running 0 baseSession (by simp [baseSession])

/-- C5 counterexample: in a 40-trial session the quarter index of trial 10
is 1, not 0, so the claimed 1-10/11-20/21-30/31-40 bucketing is wrong at
trial 10 (the formula floors `4*10/40 = 1`). -/
theorem getCurrentQuarter_claim_false :
    getCurrentQuarter { baseSession with maxTrials := 40, trialIndex := 10 } = 1 ∧
    getCurrentQuarter { baseSession with maxTrials := 40, trialIndex := 10 } ≠ 0 := by
  norm_num [getCurrentQuarter, jsFloor]

/-- C5 amended: with the 1-based current trial index the formula
`min 3 (floor (trialIndex / maxTrials * 4))` buckets a 40-trial vigilance
session as trials 1-9 to quarter 0, 10-19 to quarter 1, 20-29 to
quarter 2, and 30-40 to quarter 3 (sizes 9/10/10/11, not equal
quartiles). -/
theorem getCurrentQuarter_amended (i : ℕ) (hlo : 1 ≤ i) (hhi : i ≤ 40) :
    getCurrentQuarter { baseSession with maxTrials := 40, trialIndex := i } =
      (if i ≤ 9 then 0 else if i ≤ 19 then 1 else if i ≤ 29 then 2 else 3) := by
  have hfloor : ⌊(i : ℚ) / ((40 : ℕ) : ℚ) * 4⌋ = ((i / 10 : ℕ) : ℤ) := by
    rw [show ((i : ℚ) / ((40 : ℕ) : ℚ) * 4) = ((i : ℕ) : ℚ) / ((10 : ℕ) : ℚ) by
      push_cast
      ring]
    rw [Rat.floor_natCast_div_natCast]
    exact (Int.natCast_div i 10).symm
  simp only [getCurrentQuarter, jsFloor]
  rw [hfloor]
  rcases Nat.lt_or_ge i 10 with h10 | h10
  · have hk : i / 10 = 0 := Nat.div_eq_of_lt h10
    rw [hk, if_pos (by omega : i ≤ 9)]
    decide
  · rcases Nat.lt_or_ge i 20 with h20 | h20
    · have hk : i / 10 = 1 := by omega
      rw [hk, if_neg (by omega : ¬ i ≤ 9), if_pos (by omega : i ≤ 19)]
      decide
    · rcases Nat.lt_or_ge i 30 with h30 | h30
      · have hk : i / 10 = 2 := by omega
        rw [hk, if_neg (by omega : ¬ i ≤ 9), if_neg (by omega : ¬ i ≤ 19),
            if_pos (by omega : i ≤ 29)]
        decide
      · have hk : i / 10 = 3 ∨ i / 10 = 4 := by omega
        rw [if_neg (by omega : ¬ i ≤ 9), if_neg (by omega : ¬ i ≤ 19),
            if_neg (by omega : ¬ i ≤ 29)]
        rcases hk with h | h <;> rw [h] <;> decide

/-- Witness for C5 amended: trial 30 of a 40-trial session is already in
the last quarter. -/
theorem getCurrentQuarter_amended_witness :
    getCurrentQuarter { baseSession with maxTrials := 40, trialIndex := 30 } = 3 := by
  have h := getCurrentQuarter_amended 30 (by norm_num) (by norm_num)
  simpa using h

/-- C6 counterexample: reaching campaign level 3 grants nothing: the
level-3 table entry has type `"feature"`, and `checkUnlocks` only grants
`"mode"` unlocks, so `checkUnlocks 3` returns the campaign unchanged with
no unlock, and passing level 2 (reaching level 3) reports no new
unlock. -/
theorem checkUnlocks_level3_claim_false :
    checkUnlocks 3 initialCampaign = (initialCampaign, none) ∧
    (handleCampaignResult 80 57 { initialCampaign with level := 2 }).campaign.level = 3 ∧
    (handleCampaignResult 80 57 { initialCampaign with level := 2 }).newUnlock = none ∧
    (handleCampaignResult 80 57 { initialCampaign with level := 2 }).campaign.unlockedModes
      = initialCampaign.unlockedModes := by
  decide

/-- Helper for C6: a single `checkUnlocks` call appends at most one new
mode id and preserves freedom from duplicates. -/
theorem checkUnlocks_mono (l : ℕ) (c : Campaign) :
    (∃ t, (checkUnlocks l c).1.unlockedModes = c.unlockedModes ++ t) ∧
    (c.unlockedModes.Nodup → (checkUnlocks l c).1.unlockedModes.Nodup) := by
  cases hu : campaignUnlocks l with
  | none => simp [checkUnlocks, hu]
  | some u =>
    simp only [checkUnlocks, hu]
    split_ifs with hcond
    · refine ⟨⟨[u.id], rfl⟩, fun hnd => ?_⟩
      simp [List.nodup_append, hnd, hcond.2]
    · simp

/-- Helper for C6: over any sequence of `checkUnlocks` calls the unlocked
mode list only grows and never acquires duplicates. -/
theorem applyUnlockSeq_mono (ls : List ℕ) : ∀ c : Campaign,
    (∃ t, (applyUnlockSeq ls c).unlockedModes = c.unlockedModes ++ t) ∧
    (c.unlockedModes.Nodup → (applyUnlockSeq ls c).unlockedModes.Nodup) := by
  induction ls with
  | nil =>
    intro c
    exact ⟨⟨[], by simp [applyUnlockSeq]⟩, fun h => by simpa [applyUnlockSeq] using h⟩
  | cons l rest ih =>
    intro c
    have hstep := checkUnlocks_mono l c
    have hrest := ih (checkUnlocks l c).1
    obtain ⟨⟨t1, ht1⟩, hnd1⟩ := hstep
    obtain ⟨⟨t2, ht2⟩, hnd2⟩ := hrest
    have hfold : applyUnlockSeq (l :: rest) c = applyUnlockSeq rest (checkUnlocks l c).1 := rfl
    constructor
    · refine ⟨t1 ++ t2, ?_⟩
      rw [hfold, ht2, ht1, List.append_assoc]
    · intro h
      rw [hfold]
      exact hnd2 (hnd1 h)

/-- C6 amended: `checkUnlocks 3` grants nothing on any campaign (the
level-3 "Moving Objects" entry has type `"feature"`, which `checkUnlocks`
never grants, so re-reaching level 3 also grants nothing); an unlock whose
mode id is already granted is never re-granted; and over any sequence of
`checkUnlocks` calls the unlocked mode set grows monotonically (every
earlier list is a prefix of the later one) and, starting from a
duplicate-free list, each unlock is granted at most once. -/
theorem checkUnlocks_amended (c : Campaign) (ls : List ℕ)
    (hnd : c.unlockedModes.Nodup) :
    (∀ cc : Campaign, checkUnlocks 3 cc = (cc, none)) ∧
    (∀ (l : ℕ) (cc : Campaign) (u : Unlock), campaignUnlocks l = some u →
      u.id ∈ cc.unlockedModes → checkUnlocks l cc = (cc, none)) ∧
    (∃ t, (applyUnlockSeq ls c).unlockedModes = c.unlockedModes ++ t) ∧
    (applyUnlockSeq ls c).unlockedModes.Nodup := by
  refine ⟨?_, ?_, (applyUnlockSeq_mono ls c).1, (applyUnlockSeq_mono ls c).2 hnd⟩
  · intro cc
    simp [checkUnlocks, campaignUnlocks]
  · intro l cc u hu hmem
    simp only [checkUnlocks, hu]
    rw [if_neg]
    simp [hmem]

/-- Helper: a tap after the first within the same trial is ignored. -/
theorem handleTap_tapped (t : ℚ) (s : SessionState)
    (h : s.hasTappedThisTrial = true) :
    handleTap t s = s := by
  by_cases hs : s.status = Status.running
  · simp [handleTap, hs, h]
  · simp [handleTap, hs]

/-- C7: during a running trial the first tap sets the per-trial flag and
increments exactly one of hits (target trial, appending one reaction
time) or falseTaps (non-target trial), leaving misses and totalTargets
alone, and any subsequent tap within the same trial is a complete
no-op. -/
theorem handleTap_once (now now2 : ℚ) (s : SessionState)
    (hrun : s.status = Status.running) (hnt : s.hasTappedThisTrial = false) :
    (handleTap now s).hasTappedThisTrial = true ∧
    (s.currentIsTarget = true →
      (handleTap now s).hits = s.hits + 1 ∧
      (handleTap now s).falseTaps = s.falseTaps ∧
      (handleTap now s).reactionTimes = s.reactionTimes ++ [now - s.trialStartTime]) ∧
    (s.currentIsTarget = false →
      (handleTap now s).falseTaps = s.falseTaps + 1 ∧
      (handleTap now s).hits = s.hits ∧
      (handleTap now s).reactionTimes = s.reactionTimes) ∧
    (handleTap now s).misses = s.misses ∧
    (handleTap now s).totalTargets = s.totalTargets ∧
    handleTap now2 (handleTap now s) = handleTap now s := by
  have htapped : (handleTap now s).hasTappedThisTrial = true := by
    by_cases hc : s.currentIsTarget <;> by_cases hv : modeIsVigilance s.currentMode <;>
      simp [handleTap, hrun, hnt, hc, hv]
  refine ⟨htapped, ?_, ?_, ?_, ?_, handleTap_tapped now2 _ htapped⟩
  · intro hc
    by_cases hv : modeIsVigilance s.currentMode <;> simp [handleTap, hrun, hnt, hc, hv]
  · intro hc
    by_cases hv : modeIsVigilance s.currentMode <;> simp [handleTap, hrun, hnt, hc, hv]
  · by_cases hc : s.currentIsTarget <;> by_cases hv : modeIsVigilance s.currentMode <;>
      simp [handleTap, hrun, hnt, hc, hv]
  · by_cases hc : s.currentIsTarget <;> by_cases hv : modeIsVigilance s.currentMode <;>
      simp [handleTap, hrun, hnt, hc, hv]

/-- Witness for C7: a first tap on a running target trial counts one hit,
and a second tap is a no-op. -/
theorem handleTap_once_witness :
    (handleTap 5 runningTargetSession).hits = runningTargetSession.hits + 1 ∧
    handleTap 7 (handleTap 5 runningTargetSession) = handleTap 5 runningTargetSession :=
  ⟨((handleTap_once 5 7 runningTargetSession rfl rfl).2.1 rfl).1,
   (handleTap_once 5 7 runningTargetSession rfl rfl).2.2.2.2.2⟩

/-- Helper: every entry of `nonBlueColors`, and its fallback, is not
blue. -/
theorem getD_nonBlueColors (k : ℕ) : nonBlueColors.getD k Color.red ≠ Color.blue := by
  have h : nonBlueColors = [Color.red, Color.purple, Color.yellow, Color.green] := rfl
  rw [h]
  rcases k with _ | _ | _ | _ | n
  · decide
  · decide
  · decide
  · decide
  · simp [List.getD]

/-- Helper: every entry of `nonCircleShapes`, and its fallback, is not a
circle. -/
theorem getD_nonCircleShapes (k : ℕ) : nonCircleShapes.getD k Shape.square ≠ Shape.circle := by
  have h : nonCircleShapes = [Shape.square, Shape.triangle, Shape.diamond] := rfl
  rw [h]
  rcases k with _ | _ | _ | n
  · decide
  · decide
  · decide
  · simp [List.getD]

/-- Helper: `generateDistractor` never produces the blue circle. -/
theorem generateDistractor_ne_target (t r1 r2 : ℚ) :
    generateDistractor t r1 r2 ≠ targetStimulus := by
  simp only [generateDistractor, jsIndex]
  split_ifs
  · intro hEq
    exact getD_nonBlueColors _ (congrArg Stimulus.color hEq)
  · intro hEq
    exact getD_nonCircleShapes _ (congrArg Stimulus.shape hEq)
  · intro hEq
    exact getD_nonBlueColors _ (congrArg Stimulus.color hEq)

/-- Helper: a generated row with no target slot has target count zero. -/
theorem targetCount_map_range_zero (f : ℕ → Stimulus) :
    ∀ n : ℕ, (∀ i, i < n → f i ≠ targetStimulus) →
      targetCount ((List.range n).map f) = 0 := by
  intro n
  induction n with
  | zero => intro _; rfl
  | succ n ih =>
    intro h
    rw [List.range_succ, List.map_append]
    unfold targetCount at ih ⊢
    rw [List.countP_append, ih (fun i hi => h i (by omega))]
    simp [List.countP_cons, h n (by omega)]

/-- Helper: a generated row whose single target slot is in range has
target count one. -/
theorem targetCount_map_range_one (f : ℕ → Stimulus) (tIdx : ℕ)
    (hf : ∀ i, f i = targetStimulus ↔ i = tIdx) :
    ∀ n : ℕ, tIdx < n → targetCount ((List.range n).map f) = 1 := by
  intro n
  induction n with
  | zero => omega
  | succ n ih =>
    intro h
    rw [List.range_succ, List.map_append]
    unfold targetCount
    rw [List.countP_append]
    by_cases hlt : tIdx < n
    · have h1 := ih hlt
      unfold targetCount at h1
      rw [h1]
      have h2 : f n ≠ targetStimulus := by
        intro hcon
        rw [hf] at hcon
        omega
      simp [List.countP_cons, h2]
    · have h0 := targetCount_map_range_zero f n (fun i hi hcon => by
        rw [hf] at hcon
        omega)
      unfold targetCount at h0
      rw [h0]
      have h2 : f n = targetStimulus := by
        rw [hf]
        omega
      simp [List.countP_cons, h2]

/-- C8: a multi-target trial is flagged as a target trial iff at least
one generated stimulus is the canonical blue circle; in that case exactly
one slot holds the blue circle; in a no-target trial no slot does; and
`generateDistractor` never returns a blue circle. -/
theorem multiTarget_trialProps_spec (tp : ℚ) (n : ℕ) (rHas rIdx : ℚ)
    (rd : ℕ → ℚ × ℚ × ℚ) (hn : 1 ≤ n) (h0 : 0 ≤ rIdx) (h1 : rIdx < 1) :
    ((multiTargetTrialProps tp n rHas rIdx rd).hasTarget = true ↔
      targetStimulus ∈ (multiTargetTrialProps tp n rHas rIdx rd).symbols) ∧
    ((multiTargetTrialProps tp n rHas rIdx rd).hasTarget = true →
      targetCount (multiTargetTrialProps tp n rHas rIdx rd).symbols = 1) ∧
    ((multiTargetTrialProps tp n rHas rIdx rd).hasTarget = false →
      targetCount (multiTargetTrialProps tp n rHas rIdx rd).symbols = 0) ∧
    (∀ t r1 r2, generateDistractor t r1 r2 ≠ targetStimulus) := by
  have hnq : (0 : ℚ) < (n : ℚ) := by
    have : 0 < n := by omega
    exact_mod_cast this
  have htlt : (jsFloor (rIdx * n)).toNat < n := by
    have hge : 0 ≤ jsFloor (rIdx * n) := Int.floor_nonneg.mpr (by positivity)
    have hlt : jsFloor (rIdx * n) < (n : ℤ) := by
      apply Int.floor_lt.mpr
      push_cast
      calc rIdx * n < 1 * n := mul_lt_mul_of_pos_right h1 hnq
      _ = (n : ℚ) := one_mul _
    omega
  by_cases hcoin : rHas < tp
  · have hprops : multiTargetTrialProps tp n rHas rIdx rd =
        { symbols := (List.range n).map (fun i =>
            if i = (jsFloor (rIdx * n)).toNat then { color := .blue, shape := .circle }
            else generateDistractor (rd i).1 (rd i).2.1 (rd i).2.2),
          hasTarget := true } := by
      simp [multiTargetTrialProps, hcoin]
    have hf : ∀ i, (if i = (jsFloor (rIdx * n)).toNat
        then ({ color := .blue, shape := .circle } : Stimulus)
        else generateDistractor (rd i).1 (rd i).2.1 (rd i).2.2) = targetStimulus ↔
        i = (jsFloor (rIdx * n)).toNat := by
      intro i
      split_ifs with hi
      · simp [hi, targetStimulus]
      · simp [hi, generateDistractor_ne_target]
    have hcount := targetCount_map_range_one _ _ hf n htlt
    have hmem : targetStimulus ∈ (multiTargetTrialProps tp n rHas rIdx rd).symbols := by
      rw [hprops]
      exact List.mem_map.mpr ⟨(jsFloor (rIdx * n)).toNat,
        List.mem_range.mpr htlt, by simp [targetStimulus]⟩
    refine ⟨?_, ?_, ?_, generateDistractor_ne_target⟩
    · rw [hprops]
      simpa [hprops] using hmem
    · intro _
      rw [hprops]
      exact hcount
    · intro hfalse
      rw [hprops] at hfalse
      simp at hfalse
  · have hprops : multiTargetTrialProps tp n rHas rIdx rd =
        { symbols := (List.range n).map (fun i =>
            generateDistractor (rd i).1 (rd i).2.1 (rd i).2.2),
          hasTarget := false } := by
      simp [multiTargetTrialProps, hcoin]
    have hcount := targetCount_map_range_zero
      (fun i => generateDistractor (rd i).1 (rd i).2.1 (rd i).2.2) n
      (fun i _ => generateDistractor_ne_target _ _ _)
    refine ⟨?_, ?_, ?_, generateDistractor_ne_target⟩
    · rw [hprops]
      simp only [List.mem_map]
      constructor
      · intro hfalse
        exact absurd hfalse (by simp)
      · rintro ⟨i, _, hi⟩
        exact absurd hi (generateDistractor_ne_target _ _ _)
    · intro htrue
      rw [hprops] at htrue
      simp at htrue
    · intro _
      rw [hprops]
      exact hcount

/-- Witness for C8: a two-slot target trial at concrete draws holds
exactly one blue circle. -/
theorem multiTarget_trialProps_spec_witness :
    targetCount (multiTargetTrialProps 0.5 2 0.3 0.6 (fun _ => (0, 0, 0))).symbols = 1 :=
  (multiTarget_trialProps_spec 0.5 2 0.3 0.6 (fun _ => (0, 0, 0))
    (by norm_num) (by norm_num) (by norm_num)).2.1
    (by norm_num [multiTargetTrialProps])

/-- Helper: once the per-trial flag is set, any further fold of tap
events is the identity. -/
theorem foldl_handleTap_tapped (ts : List ℚ) (s : SessionState)
    (h : s.hasTappedThisTrial = true) :
    ts.foldl (fun a t => handleTap t a) s = s := by
  induction ts with
  | nil => rfl
  | cons t rest ih =>
    rw [List.foldl_cons, handleTap_tapped t s h]
    exact ih

/-- Helper: counter effect of a first tap on a running trial. -/
theorem handleTap_counters (t : ℚ) (s : SessionState)
    (hrun : s.status = Status.running) (hnt : s.hasTappedThisTrial = false) :
    (handleTap t s).status = s.status ∧
    (handleTap t s).maxTrials = s.maxTrials ∧
    (handleTap t s).trialIndex = s.trialIndex ∧
    (handleTap t s).totalTargets = s.totalTargets ∧
    (handleTap t s).currentIsTarget = s.currentIsTarget ∧
    (handleTap t s).hasTappedThisTrial = true ∧
    (handleTap t s).hits + (handleTap t s).misses
      = s.hits + s.misses + (if s.currentIsTarget then 1 else 0) := by
  by_cases hc : s.currentIsTarget <;> by_cases hv : modeIsVigilance s.currentMode <;>
    simp [handleTap, hrun, hnt, hc, hv] <;> omega

/-- Helper: the tap fold on a fresh trial is either the identity (no tap)
or one first tap. -/
theorem foldl_handleTap_cases (ts : List ℚ) (s : SessionState)
    (hrun : s.status = Status.running) (hnt : s.hasTappedThisTrial = false) :
    ts.foldl (fun a t => handleTap t a) s = s ∨
    ∃ t, ts.foldl (fun a t => handleTap t a) s = handleTap t s := by
  cases ts with
  | nil => exact Or.inl rfl
  | cons t rest =>
    refine Or.inr ⟨t, ?_⟩
    rw [List.foldl_cons]
    exact foldl_handleTap_tapped rest _ ((handleTap_counters t s hrun hnt).2.2.2.2.2.1)

/-- Helper: counter effect of presenting a trial. -/
theorem trialBegin_char (inp : TrialInput) (s : SessionState) :
    (trialBegin inp s).status = s.status ∧
    (trialBegin inp s).maxTrials = s.maxTrials ∧
    (trialBegin inp s).trialIndex = s.trialIndex + 1 ∧
    (trialBegin inp s).hits = s.hits ∧
    (trialBegin inp s).misses = s.misses ∧
    (trialBegin inp s).hasTappedThisTrial = false ∧
    (trialBegin inp s).totalTargets
      = s.totalTargets + (if (trialBegin inp s).currentIsTarget then 1 else 0) := by
  by_cases hm : modeIsMulti s.currentMode
  · by_cases ht : inp.multiHasTarget <;> by_cases hv : modeIsVigilance s.currentMode <;>
      simp [trialBegin, hm, ht, hv]
  · by_cases ht : modeIsTarget s.currentMode inp.stim.color inp.stim.shape <;>
      by_cases hv : modeIsVigilance s.currentMode <;>
      simp [trialBegin, hm, ht, hv]

/-- Helper: counter effect of the countdown expiring. -/
theorem trialTimeout_char (s : SessionState) :
    (trialTimeout s).status = s.status ∧
    (trialTimeout s).maxTrials = s.maxTrials ∧
    (trialTimeout s).trialIndex = s.trialIndex ∧
    (trialTimeout s).hits = s.hits ∧
    (trialTimeout s).totalTargets = s.totalTargets ∧
    (trialTimeout s).misses = s.misses
      + (if s.currentIsTarget = true ∧ s.hasTappedThisTrial = false then 1 else 0) := by
  by_cases hc : s.currentIsTarget = true ∧ s.hasTappedThisTrial = false
  · by_cases hv : modeIsVigilance s.currentMode <;> simp [trialTimeout, hc, hv]
  · simp [trialTimeout, hc]

/-- Helper: one full trial keeps the session running, advances the trial
index by one, and adds the same amount (0 or 1) to `hits + misses` and to
`totalTargets`. -/
theorem runTrial_char (inp : TrialInput) (s : SessionState)
    (hrun : s.status = Status.running) :
    (runTrial inp s).status = Status.running ∧
    (runTrial inp s).maxTrials = s.maxTrials ∧
    (runTrial inp s).trialIndex = s.trialIndex + 1 ∧
    ∃ b : ℕ, b ≤ 1 ∧
      (runTrial inp s).hits + (runTrial inp s).misses = s.hits + s.misses + b ∧
      (runTrial inp s).totalTargets = s.totalTargets + b := by
  obtain ⟨b1, b2, b3, b4, b5, b6, b7⟩ := trialBegin_char inp s
  have hb1run : (trialBegin inp s).status = Status.running := by rw [b1, hrun]
  have hrt : runTrial inp s
      = trialTimeout (inp.taps.foldl (fun a t => handleTap t a) (trialBegin inp s)) := rfl
  rcases foldl_handleTap_cases inp.taps (trialBegin inp s) hb1run b6 with hfold | ⟨t, hfold⟩
  · obtain ⟨c1, c2, c3, c4, c5, c6⟩ := trialTimeout_char (trialBegin inp s)
    rw [hrt, hfold]
    refine ⟨by rw [c1, b1, hrun], by rw [c2, b2], by rw [c3, b3],
      if (trialBegin inp s).currentIsTarget then 1 else 0, by split_ifs <;> omega, ?_, ?_⟩
    · rw [c4, c6, b4, b5, b6]
      simp only [eq_self_iff_true, and_true]
      split_ifs <;> omega
    · rw [c5, b7]
  · obtain ⟨d1, d2, d3, d4, d5, d6, d7⟩ :=
      handleTap_counters t (trialBegin inp s) hb1run b6
    obtain ⟨c1, c2, c3, c4, c5, c6⟩ :=
      trialTimeout_char (handleTap t (trialBegin inp s))
    rw [hrt, hfold]
    refine ⟨by rw [c1, d1, b1, hrun], by rw [c2, d2, b2], by rw [c3, d3, b3],
      if (trialBegin inp s).currentIsTarget then 1 else 0, by split_ifs <;> omega, ?_, ?_⟩
    · rw [c4, c6, d6]
      simp only [Bool.true_eq_false, and_false, if_false, Nat.add_zero]
      rw [d7, b4, b5]
    · rw [c5, d4, b7]

/-- Helper: the trial loop, started anywhere below the trial budget with
consistent counters, ends exactly at `maxTrials` with
`hits + misses = totalTargets ≤ trialIndex`. -/
theorem runTrialsFrom_spec (inputs : List TrialInput) :
    ∀ s : SessionState, s.status = Status.running →
      s.hits + s.misses = s.totalTargets →
      s.totalTargets ≤ s.trialIndex →
      s.trialIndex ≤ s.maxTrials →
      s.maxTrials ≤ s.trialIndex + inputs.length →
      (runTrialsFrom inputs s).status = Status.running ∧
      (runTrialsFrom inputs s).hits + (runTrialsFrom inputs s).misses
        = (runTrialsFrom inputs s).totalTargets ∧
      (runTrialsFrom inputs s).totalTargets ≤ (runTrialsFrom inputs s).trialIndex ∧
      (runTrialsFrom inputs s).trialIndex = s.maxTrials ∧
      (runTrialsFrom inputs s).maxTrials = s.maxTrials := by
  induction inputs with
  | nil =>
    intro s h1 h2 h3 h4 h5
    simp only [List.length_nil, Nat.add_zero] at h5
    have hidx : s.trialIndex = s.maxTrials := by omega
    exact ⟨h1, h2, h3, hidx, rfl⟩
  | cons inp rest ih =>
    intro s h1 h2 h3 h4 h5
    simp only [runTrialsFrom]
    by_cases hguard : s.maxTrials ≤ s.trialIndex
    · rw [if_pos hguard]
      exact ⟨h1, h2, h3, by omega, rfl⟩
    · rw [if_neg hguard]
      obtain ⟨c1, c2, c3, b, hb, hhm, htt⟩ := runTrial_char inp s h1
      have hnext := ih (runTrial inp s) c1 (by omega) (by omega) (by omega)
        (by simp only [List.length_cons] at h5; omega)
      obtain ⟨e1, e2, e3, e4, e5⟩ := hnext
      exact ⟨e1, e2, e3, by omega, by omega⟩

/-- C4: a session run to completion over `maxTrials` trials (each trial
an arbitrary generator outcome plus arbitrary tap events) finishes with
`hits + misses = totalTargets` and `totalTargets ≤ maxTrials`: every
target trial is classified as exactly one hit or miss, and each trial
contributes at most one target. -/
theorem session_counters_spec (s0 : SessionState) (inputs : List TrialInput)
    (hlen : s0.maxTrials ≤ inputs.length) :
    (runSessionToEnd inputs (startSessionCore s0)).status = Status.finished ∧
    (runSessionToEnd inputs (startSessionCore s0)).hits
      + (runSessionToEnd inputs (startSessionCore s0)).misses
      = (runSessionToEnd inputs (startSessionCore s0)).totalTargets ∧
    (runSessionToEnd inputs (startSessionCore s0)).totalTargets ≤ s0.maxTrials ∧
    (runSessionToEnd inputs (startSessionCore s0)).trialIndex = s0.maxTrials := by
  have a1 : (startSessionCore s0).status = Status.running := rfl
  have a2 : (startSessionCore s0).hits = 0 := rfl
  have a3 : (startSessionCore s0).misses = 0 := rfl
  have a4 : (startSessionCore s0).totalTargets = 0 := rfl
  have a5 : (startSessionCore s0).trialIndex = 0 := rfl
  have a6 : (startSessionCore s0).maxTrials = s0.maxTrials := rfl
  obtain ⟨e1, e2, e3, e4, e5⟩ := runTrialsFrom_spec inputs (startSessionCore s0) a1
    (by omega) (by omega) (by omega) (by omega)
  have hend : runSessionToEnd inputs (startSessionCore s0)
      = endGameCounters (runTrialsFrom inputs (startSessionCore s0)) := rfl
  rw [hend]
  refine ⟨rfl, ?_, ?_, ?_⟩
  · simpa [endGameCounters] using e2
  · simp only [endGameCounters]
    omega
  · simpa [endGameCounters] using (by omega : (runTrialsFrom inputs
      (startSessionCore s0)).trialIndex = s0.maxTrials)

/-- Witness for C4: a two-trial session run over two concrete no-tap
non-target trials finishes with balanced counters. -/
theorem session_counters_spec_witness :
    ({ baseSession with maxTrials := 2 } : SessionState).maxTrials
      ≤ ([sampleInput, sampleInput] : List TrialInput).length ∧
    (runSessionToEnd [sampleInput, sampleInput]
      (startSessionCore { baseSession with maxTrials := 2 })).status = Status.finished ∧
    (runSessionToEnd [sampleInput, sampleInput]
      (startSessionCore { baseSession with maxTrials := 2 })).trialIndex = 2 :=
  ⟨by decide,
   (session_counters_spec { baseSession with maxTrials := 2 }
      [sampleInput, sampleInput] (by decide)).1,
   (session_counters_spec { baseSession with maxTrials := 2 }
      [sampleInput, sampleInput] (by decide)).2.2.2⟩

/-- Witness for C6 amended: replaying levels 1 through 5 with a repeated
visit to levels 3 and 4 grants each mode once and keeps the list
duplicate-free. -/
theorem checkUnlocks_amended_witness :
    (∃ t, (applyUnlockSeq [1, 3, 4, 5, 3, 4] initialCampaign).unlockedModes =
      initialCampaign.unlockedModes ++ t) ∧
    (applyUnlockSeq [1, 3, 4, 5, 3, 4] initialCampaign).unlockedModes.Nodup :=
  ⟨(checkUnlocks_amended initialCampaign [1, 3, 4, 5, 3, 4] (by decide)).2.2.1,
   (checkUnlocks_amended initialCampaign [1, 3, 4, 5, 3, 4] (by decide)).2.2.2⟩

end ImpulseLab
